import Mathlib

/-!
Verification of the Nexus Arena client against its natural-language
specification.  Each module of the client that the specification's testable
properties mention is shallowly embedded below: pure helpers become Lean
functions, and the stateful hooks become explicit state-transition functions
(success and error paths are modelled by passing the backend's response as an
argument).  Theorems at the end of the file settle the individual claims.
-/

set_option maxHeartbeats 1000000

namespace NexusArena

/-! ## Avatar generation (`src/utils/avatar.ts`)

`hashString` sums the UTF-16 code units of the seed (JavaScript
`split('')` splits a string into code units and `charCodeAt(0)` reads each
unit) and takes the absolute value; `generateAvatar` selects a style and a
background color from that hash and builds a DiceBear URL. -/

namespace Avatar

def AVATAR_STYLES : List String :=
  ["avataaars", "bottts", "lorelei", "micah", "miniavs", "personas"]

def BACKGROUND_COLORS : List String :=
  ["b6e3f4", "c0aede", "ffd5dc", "ffdfbf", "d1d4f9"]

/-- UTF-16 code units of a single character (surrogate pair outside the BMP),
matching what JavaScript `split('')` + `charCodeAt(0)` observes. -/
def charUnits (c : Char) : List Nat :=
  if c.toNat < 0x10000 then [c.toNat]
  else [0xD800 + (c.toNat - 0x10000) / 0x400, 0xDC00 + (c.toNat - 0x10000) % 0x400]

def utf16Units (s : String) : List Nat :=
  (s.data.map charUnits).flatten

/-- `Math.abs(seed.split('').reduce((acc, char) => acc + char.charCodeAt(0), 0))` -/
def hashString (seed : String) : Int :=
  (((utf16Units seed).foldl (fun (acc : Int) u => acc + (u : Int)) 0).natAbs : Int)

/-- JavaScript array indexing as used inside a template literal: an
out-of-range index yields `undefined`, which interpolates as the string
`"undefined"`. -/
def jsListGet (l : List String) (i : Int) : String :=
  if h : 0 ≤ i ∧ i.toNat < l.length then l.get ⟨i.toNat, h.2⟩ else "undefined"

def hexDigitChar (n : Nat) : Char :=
  if n < 10 then Char.ofNat (48 + n) else Char.ofNat (55 + n)

/-- UTF-8 bytes of a character (for percent encoding). -/
def utf8Bytes (c : Char) : List Nat :=
  let n := c.toNat
  if n < 0x80 then [n]
  else if n < 0x800 then [0xC0 + n / 0x40, 0x80 + n % 0x40]
  else if n < 0x10000 then
    [0xE0 + n / 0x1000, 0x80 + (n / 0x40) % 0x40, 0x80 + n % 0x40]
  else
    [0xF0 + n / 0x40000, 0x80 + (n / 0x1000) % 0x40, 0x80 + (n / 0x40) % 0x40,
     0x80 + n % 0x40]

/-- Characters `encodeURIComponent` leaves unescaped. -/
def isUriUnescaped (n : Nat) : Bool :=
  (65 ≤ n && n ≤ 90) || (97 ≤ n && n ≤ 122) || (48 ≤ n && n ≤ 57) ||
  n == 45 || n == 46 || n == 95 || n == 126 ||
  n == 33 || n == 42 || n == 39 || n == 40 || n == 41

def encodeChar (c : Char) : List Char :=
  if isUriUnescaped c.toNat then [c]
  else (utf8Bytes c).foldr
    (fun b acc => Char.ofNat 37 :: hexDigitChar (b / 16) :: hexDigitChar (b % 16) :: acc) []

def encodeURIComponent (s : String) : String :=
  ⟨(s.data.map encodeChar).flatten⟩

/-- Style index used by `generateAvatar`: the caller-supplied index when
present, otherwise the hash of the seed modulo the number of styles. -/
def styleIndexOf (seed : String) (style : Option Int) : Int :=
  match style with
  | some s => s
  | none => hashString seed % (AVATAR_STYLES.length : Int)

/-- `generateAvatar(seed, style?)` from `src/utils/avatar.ts`. -/
def generateAvatar (seed : String) (style : Option Int) : String :=
  let styleIndex := styleIndexOf seed style
  let colorIndex := hashString seed % (BACKGROUND_COLORS.length : Int)
  let backgroundColor := jsListGet BACKGROUND_COLORS colorIndex
  let styleName := jsListGet AVATAR_STYLES styleIndex
  "https://api.dicebear.com/6.x/" ++ styleName ++ "/svg?seed=" ++
    encodeURIComponent seed ++ "&backgroundColor=" ++ backgroundColor

end Avatar

/-! ## `useNotifications` hook

Local state of the hook: the notification list and the `unreadCount`
counter.  Each operation below is the success path of the corresponding
handler in the hook (the error paths leave the state untouched).  The
counter is an `Int` because the JavaScript counter is a plain number and
`markAsRead` clamps it with `Math.max(0, count - 1)`. -/

namespace Notifications

structure Notification where
  id : String
  user_id : String
  title : String
  message : String
  read : Bool
deriving DecidableEq

structure NotifState where
  notifications : List Notification
  unreadCount : Int
deriving DecidableEq

/-- Number of notifications in a list whose `read` flag is false
(`data.filter(n => !n.read).length`). -/
def unreadLen (l : List Notification) : Nat :=
  (l.filter (fun n => !n.read)).length

/-- Success path of the initial fetch: store the rows and count the unread
ones. -/
def fetchNotifications (data : List Notification) : NotifState :=
  { notifications := data, unreadCount := (unreadLen data : Int) }

/-- Realtime `INSERT` handler: prepend the pushed row and bump the counter
by one unconditionally. -/
def handleInsertNotification (n : Notification) (s : NotifState) : NotifState :=
  { notifications := n :: s.notifications, unreadCount := s.unreadCount + 1 }

/-- The map applied to the list by `markAsRead`. -/
def setReadIfId (id : String) (n : Notification) : Notification :=
  if n.id = id then { n with read := true } else n

/-- Success path of `markAsRead(id)`: flag the matching rows read and clamp
the counter with `Math.max(0, count - 1)`. -/
def markAsRead (id : String) (s : NotifState) : NotifState :=
  { notifications := s.notifications.map (setReadIfId id),
    unreadCount := max 0 (s.unreadCount - 1) }

/-- `markAllAsRead`: early-returns when the counter is zero, otherwise flags
every row read and zeroes the counter. -/
def markAllAsRead (s : NotifState) : NotifState :=
  if s.unreadCount = 0 then s
  else { notifications := s.notifications.map (fun n => { n with read := true }),
         unreadCount := 0 }

/-- The implicit invariant of the hook: the counter equals the number of
unread notifications in the list. -/
def notifInvariant (s : NotifState) : Prop :=
  s.unreadCount = (unreadLen s.notifications : Int)

instance (s : NotifState) : Decidable (notifInvariant s) := by
  unfold notifInvariant; infer_instance

end Notifications

/-! ## `ChatDrawer` transcript (`src/components/chat/ChatDrawer.tsx`)

The local transcript is a list of messages enriched with the author's
username.  `sendMessage` first appends an optimistic copy under a
`temp-<timestamp>` id; when the database insert succeeds nothing further
happens to the list, and when it fails the temporary copy is filtered out.
The realtime handler appends the pushed row unless a message with the same
id is already present. -/

namespace Chat

/-- A row of the `messages` table as delivered by a push event. -/
structure Message where
  id : String
  chat_id : String
  user_id : String
  content : String
deriving DecidableEq

/-- A transcript entry (`MessageWithProfile`): a message plus the author's
username. -/
structure TranscriptMsg where
  id : String
  chat_id : String
  user_id : String
  content : String
  username : String
deriving DecidableEq

/-- The optimistic message built by `sendMessage` before the remote insert
(`id: temp-<Date.now()>`). -/
def mkTempMessage (now : Nat) (chatId userId content username : String) : TranscriptMsg :=
  { id := "temp-" ++ toString now, chat_id := chatId, user_id := userId,
    content := content, username := username }

/-- Optimistic phase of `sendMessage`: append the temporary copy. -/
def sendMessageOptimistic (tmp : TranscriptMsg) (msgs : List TranscriptMsg) :
    List TranscriptMsg :=
  msgs ++ [tmp]

/-- Completion phase of `sendMessage`: on success the transcript is left as
is; on a failed insert the temporary copy is removed. -/
def sendMessageComplete (ok : Bool) (tmpId : String) (msgs : List TranscriptMsg) :
    List TranscriptMsg :=
  if ok then msgs else msgs.filter (fun m => m.id ≠ tmpId)

/-- The enriched transcript entry the realtime handler builds from a pushed
row and the fetched username. -/
def enrich (m : Message) (username : String) : TranscriptMsg :=
  { id := m.id, chat_id := m.chat_id, user_id := m.user_id,
    content := m.content, username := username }

/-- Realtime `INSERT` handler of `ChatDrawer`: skip the event when a message
with the same id is already in the transcript, otherwise append the
enriched row. -/
def handleMessageInsert (newMsg : Message) (username : String)
    (msgs : List TranscriptMsg) : List TranscriptMsg :=
  if msgs.any (fun m => m.id == newMsg.id) then msgs
  else msgs ++ [enrich newMsg username]

end Chat

/-! ## `useChats.joinChat` (`src/hooks/use-upload.ts`)

The backend's `chat_participants` table is modelled as a list of rows; the
membership check (`maybeSingle`) is a `find?` over it, and the insert
appends a row. -/

namespace Chats

structure ChatParticipantRow where
  chat_id : String
  user_id : String
deriving DecidableEq

/-- Success path of `joinChat(chatId)` for a logged-in user: if the user is
already a participant return `true` and leave the table alone, otherwise
insert a participant row. -/
def joinChat (userId : String) (participants : List ChatParticipantRow)
    (chatId : String) : Bool × List ChatParticipantRow :=
  match participants.find? (fun p => p.chat_id == chatId && p.user_id == userId) with
  | some _ => (true, participants)
  | none => (true, participants ++ [⟨chatId, userId⟩])

end Chats

/-! ## Data-access functions (`src/services/api.ts`)

Each function is embedded as a transition from the backend's responses (one
response argument per remote call site) to an outcome consisting of the
returned value or thrown error, the trace of remote operations issued, and
the `console.error` log lines produced. -/

namespace Api

inductive OpKind where
  | select
  | insert
  | update
  | delete
deriving DecidableEq

structure RemoteOp where
  kind : OpKind
  table : String
deriving DecidableEq

structure DbError where
  message : String
deriving DecidableEq

structure ApiOutcome (α : Type) where
  result : Except DbError α
  trace : List RemoteOp
  log : List String

/-- The shared shape of the single-call data-access functions: issue one
remote operation, and either return the backend's data or log the error and
re-throw it. -/
def singleOpApi {α : Type} (op : RemoteOp) (logMsg : String)
    (resp : Except DbError α) : ApiOutcome α :=
  match resp with
  | .error e => ⟨.error e, [op], [logMsg]⟩
  | .ok d => ⟨.ok d, [op], []⟩

structure Team where
  id : String
  name : String
  created_by : Option String
deriving DecidableEq

structure TeamMemberRow where
  team_id : String
  user_id : String
  profile_id : String
  role : String
deriving DecidableEq

abbrev TeamWithMembers := Team × List TeamMemberRow

structure ProfileRow where
  id : String
deriving DecidableEq

structure MatchRow where
  id : String
deriving DecidableEq

structure PlayerRequestRow where
  id : String
deriving DecidableEq

structure NotificationRow where
  id : String
deriving DecidableEq

def updateTeam (resp : Except DbError Team) : ApiOutcome Team :=
  singleOpApi ⟨.update, "teams"⟩ "Error updating team:" resp

def deleteTeam (resp : Except DbError Unit) : ApiOutcome Bool :=
  singleOpApi ⟨.delete, "teams"⟩ "Error deleting team:" (resp.map fun _ => true)

def getTeamById (resp : Except DbError TeamWithMembers) : ApiOutcome TeamWithMembers :=
  singleOpApi ⟨.select, "teams"⟩ "Error fetching team with id:" resp

def getPlayers (resp : Except DbError (List ProfileRow)) : ApiOutcome (List ProfileRow) :=
  singleOpApi ⟨.select, "profiles"⟩ "Error fetching players:" resp

def getMatches (resp : Except DbError (List MatchRow)) : ApiOutcome (List MatchRow) :=
  singleOpApi ⟨.select, "matches"⟩ "Error fetching matches:" resp

def createMatch (resp : Except DbError MatchRow) : ApiOutcome MatchRow :=
  singleOpApi ⟨.insert, "matches"⟩ "Error creating match:" resp

def getPlayerRequests (resp : Except DbError (List PlayerRequestRow)) :
    ApiOutcome (List PlayerRequestRow) :=
  singleOpApi ⟨.select, "player_requests"⟩ "Error fetching player requests:" resp

def sendPlayerRequest (resp : Except DbError PlayerRequestRow) :
    ApiOutcome PlayerRequestRow :=
  singleOpApi ⟨.insert, "player_requests"⟩ "Error sending player request:" resp

def updatePlayerRequest (resp : Except DbError PlayerRequestRow) :
    ApiOutcome PlayerRequestRow :=
  singleOpApi ⟨.update, "player_requests"⟩ "Error updating player request:" resp

def getNotifications (resp : Except DbError (List NotificationRow)) :
    ApiOutcome (List NotificationRow) :=
  singleOpApi ⟨.select, "notifications"⟩ "Error fetching notifications:" resp

def markNotificationAsRead (resp : Except DbError NotificationRow) :
    ApiOutcome NotificationRow :=
  singleOpApi ⟨.update, "notifications"⟩ "Error marking notification as read:" resp

/-- `getTeams`: one select on `teams`; when it succeeds and returned a
non-empty list, one further select on `team_members` per team.  A failed
members fetch is logged and the team is returned with an empty member list
(no throw); a failed teams fetch is logged twice (inner handler and the
surrounding catch) and re-thrown. -/
def getTeams (teamsResp : Except DbError (List Team))
    (membersResp : String → Except DbError (List TeamMemberRow)) :
    ApiOutcome (List TeamWithMembers) :=
  match teamsResp with
  | .error e => ⟨.error e, [⟨.select, "teams"⟩],
      ["Error fetching teams:", "Error in getTeams:"]⟩
  | .ok teams =>
    if teams.isEmpty then ⟨.ok [], [⟨.select, "teams"⟩], []⟩
    else
      ⟨.ok (teams.map fun t =>
          match membersResp t.id with
          | .error _ => (t, [])
          | .ok ms => (t, ms)),
       ⟨.select, "teams"⟩ :: teams.map (fun _ => ⟨.select, "team_members"⟩),
       (teams.map fun t =>
          match membersResp t.id with
          | .error _ => ["Error fetching members for team " ++ t.id ++ ":"]
          | .ok _ => []).flatten⟩

/-- The payload a team-creation submission sends to the `teams` insert. -/
structure TeamInsert where
  name : String
  game : String
  created_by : Option String
deriving DecidableEq

/-- `createTeam`: insert the team row; on success, when `created_by` is
present, additionally insert the creator's `team_members` row.  An error of
the member insert is logged but not thrown; the function still returns the
new team with an empty member list. -/
def createTeam (teamData : TeamInsert) (insertResp : Except DbError Team)
    (memberInsertErr : Option DbError) : ApiOutcome TeamWithMembers :=
  match insertResp with
  | .error e => ⟨.error e, [⟨.insert, "teams"⟩],
      ["Error creating team:", "Error in createTeam:"]⟩
  | .ok newTeam =>
    match teamData.created_by, memberInsertErr with
    | none, _ => ⟨.ok (newTeam, []), [⟨.insert, "teams"⟩], []⟩
    | some _, none =>
      ⟨.ok (newTeam, []), [⟨.insert, "teams"⟩, ⟨.insert, "team_members"⟩], []⟩
    | some _, some _ =>
      ⟨.ok (newTeam, []), [⟨.insert, "teams"⟩, ⟨.insert, "team_members"⟩],
       ["Error adding creator as team member:"]⟩

end Api

/-! ## The Teams page (`src/pages/Teams.tsx`) -/

namespace TeamsPage

open Api

/-- The `teamData` object built by `CreateTeamForm.handleSubmit`: the
creator reference is the submitting profile's id. -/
def buildTeamData (profileId : Option String) (name game : String) : TeamInsert :=
  { name := name, game := game, created_by := profileId }

/-- `handleTeamCreated`: `setMyTeams(prev => [newTeam, ...prev])`. -/
def handleTeamCreated (newTeam : TeamWithMembers)
    (myTeams : List TeamWithMembers) : List TeamWithMembers :=
  newTeam :: myTeams

/-- The team-creation submit flow: build the payload, call `createTeam`,
and on success pass the new team to `handleTeamCreated`; on failure the
list is left unchanged (the catch branch only shows a notice). -/
def submitCreateTeam (profileId : Option String) (name game : String)
    (insertResp : Except DbError Team) (memberInsertErr : Option DbError)
    (myTeams : List TeamWithMembers) :
    ApiOutcome TeamWithMembers × List TeamWithMembers :=
  let out := createTeam (buildTeamData profileId name game) insertResp memberInsertErr
  match out.result with
  | .ok nt => (out, handleTeamCreated nt myTeams)
  | .error _ => (out, myTeams)

/-- Modelled from the spec: the backend's server-side authorization for team
deletion is not part of this repository; per the specification ("Deleting a
team the current profile does not own is rejected by the backend"), the
remote delete succeeds only when the requester is the team's creator and
returns an error otherwise (a delete whose filter matches no row succeeds
and affects nothing). -/
def backendDeleteTeam (requester : String) (db : List Team) (id : String) :
    Except DbError (List Team) :=
  match db.find? (fun t => t.id == id) with
  | some t =>
    if t.created_by = some requester then .ok (db.filter (fun t => t.id ≠ id))
    else .error ⟨"not authorized"⟩
  | none => .ok db

/-- `MyTeamDetail.handleDelete`: on a successful delete the page refetches
the team lists; when `deleteTeam` throws, the catch branch only shows a
notice and the local list state is left unchanged. -/
def handleDelete (delOutcome : ApiOutcome Bool)
    (refreshed myTeams : List TeamWithMembers) : List TeamWithMembers :=
  match delOutcome.result with
  | .ok _ => refreshed
  | .error _ => myTeams

end TeamsPage

/-! ## Concrete fixtures used by the witnesses and counterexamples -/

namespace Notifications

def notifA : Notification :=
  { id := "a", user_id := "u1", title := "Old", message := "seen", read := true }

def notifB : Notification :=
  { id := "b", user_id := "u1", title := "New", message := "unseen", read := false }

/-- State reached by fetching a single already-read notification. -/
def stateA : NotifState := fetchNotifications [notifA]

/-- State reached by fetching one read and one unread notification. -/
def stateAB : NotifState := fetchNotifications [notifA, notifB]

/-- State reached by fetching a single unread notification. -/
def stateB : NotifState := fetchNotifications [notifB]

end Notifications

namespace Chat

def tempMsgEx : TranscriptMsg := mkTempMessage 123 "c1" "u1" "hi" "alice"

def serverMsgEx : Message :=
  { id := "m1", chat_id := "c1", user_id := "u1", content := "hi" }

/-- Transcript after sending "hi" (optimistic insert, successful database
insert) and then receiving the row-insert push event for the server copy. -/
def transcriptAfterEx : List TranscriptMsg :=
  handleMessageInsert serverMsgEx "alice"
    (sendMessageComplete true tempMsgEx.id (sendMessageOptimistic tempMsgEx []))

end Chat

namespace Api

def teamEx : Team := { id := "t1", name := "Alpha", created_by := some "p1" }

def tinsEx : TeamInsert := { name := "Alpha", game := "Valorant", created_by := some "p1" }

def oldTeamEx : TeamWithMembers := ({ id := "t0", name := "Old", created_by := some "p1" }, [])

end Api

/-! ## Helper lemmas -/

theorem singleOpApi_trace_result {α : Type} (op : Api.RemoteOp) (logMsg : String)
    (resp : Except Api.DbError α) :
    (Api.singleOpApi op logMsg resp).trace = [op] ∧
    (Api.singleOpApi op logMsg resp).result = resp := by
  cases resp <;> simp [Api.singleOpApi]

theorem singleOpApi_log {α : Type} (op : Api.RemoteOp) (logMsg : String)
    (resp : Except Api.DbError α) (e : Api.DbError) (he : resp = .error e) :
    (Api.singleOpApi op logMsg resp).log = [logMsg] := by
  subst he; rfl

theorem map_setReadIfId_of_not_mem (l : List Notifications.Notification) (id : String)
    (h : ∀ m ∈ l, m.id ≠ id) : l.map (Notifications.setReadIfId id) = l := by
  induction l with
  | nil => rfl
  | cons x xs ih =>
    have hx : x.id ≠ id := h x (List.mem_cons_self x xs)
    simp only [List.map_cons, Notifications.setReadIfId, if_neg hx]
    rw [ih (fun m hm => h m (List.mem_cons_of_mem x hm))]

theorem unreadLen_cons (x : Notifications.Notification)
    (xs : List Notifications.Notification) :
    Notifications.unreadLen (x :: xs) =
      (if x.read then 0 else 1) + Notifications.unreadLen xs := by
  cases hx : x.read <;> simp [Notifications.unreadLen, List.filter, hx]
  omega

theorem unreadLen_map_setReadIfId (l : List Notifications.Notification) (id : String)
    (hnd : (l.map Notifications.Notification.id).Nodup)
    (hex : ∃ m ∈ l, m.id = id ∧ m.read = false) :
    Notifications.unreadLen (l.map (Notifications.setReadIfId id)) + 1 =
      Notifications.unreadLen l := by
  induction l with
  | nil => simp at hex
  | cons x xs ih =>
    rw [List.map_cons, List.nodup_cons] at hnd
    obtain ⟨hx_not, hnd_xs⟩ := hnd
    by_cases hx : x.id = id
    · -- the head is the (unique) notification being marked
      have hxs_ne : ∀ m ∈ xs, m.id ≠ id := by
        intro m hm heq
        apply hx_not
        have hmm : m.id ∈ List.map Notifications.Notification.id xs :=
          List.mem_map_of_mem Notifications.Notification.id hm
        rwa [heq, ← hx] at hmm
      have hx_unread : x.read = false := by
        obtain ⟨m, hm, hmid, hmread⟩ := hex
        rcases List.mem_cons.mp hm with rfl | hmxs
        · exact hmread
        · exact absurd hmid (hxs_ne m hmxs)
      rw [List.map_cons, map_setReadIfId_of_not_mem xs id hxs_ne]
      rw [unreadLen_cons, unreadLen_cons]
      simp [Notifications.setReadIfId, hx, hx_unread]
      omega
    · -- the head is untouched; the marked notification is in the tail
      have hex_xs : ∃ m ∈ xs, m.id = id ∧ m.read = false := by
        obtain ⟨m, hm, hmid, hmread⟩ := hex
        rcases List.mem_cons.mp hm with rfl | hmxs
        · exact absurd hmid hx
        · exact ⟨m, hmxs, hmid, hmread⟩
      rw [List.map_cons]
      rw [unreadLen_cons, unreadLen_cons]
      have hsame : Notifications.setReadIfId id x = x := by
        simp [Notifications.setReadIfId, hx]
      rw [hsame]
      have := ih hnd_xs hex_xs
      omega

theorem unreadLen_map_allRead (l : List Notifications.Notification) :
    Notifications.unreadLen
      (l.map (fun n => { n with read := true })) = 0 := by
  induction l with
  | nil => rfl
  | cons x xs ih => simpa [unreadLen_cons] using ih

/-! ## Claim theorems -/

/-- Claim C7: avatar URL generation is deterministic — two calls to
`generateAvatar` with the same seed and the same optional style argument
return the identical URL string, and with no style argument the URL is
computed from the seed alone, via the character-code-sum hash selecting the
style (mod 6) and the background color (mod 5). -/
theorem generateAvatar_deterministic (s1 s2 : String) (st1 st2 : Option Int)
    (hs : s1 = s2) (hst : st1 = st2) :
    Avatar.generateAvatar s1 st1 = Avatar.generateAvatar s2 st2 ∧
    Avatar.generateAvatar s1 none =
      "https://api.dicebear.com/6.x/" ++
        Avatar.jsListGet Avatar.AVATAR_STYLES
          (Avatar.hashString s1 % (Avatar.AVATAR_STYLES.length : Int)) ++
      "/svg?seed=" ++ Avatar.encodeURIComponent s1 ++ "&backgroundColor=" ++
        Avatar.jsListGet Avatar.BACKGROUND_COLORS
          (Avatar.hashString s1 % (Avatar.BACKGROUND_COLORS.length : Int)) := by
  subst hs; subst hst
  exact ⟨rfl, rfl⟩

/-- Witness for C7 at the concrete seed "alice". -/
theorem generateAvatar_deterministic_witness :
    Avatar.generateAvatar "alice" none = Avatar.generateAvatar "alice" none ∧
    Avatar.generateAvatar "alice" none =
      "https://api.dicebear.com/6.x/" ++
        Avatar.jsListGet Avatar.AVATAR_STYLES
          (Avatar.hashString "alice" % (Avatar.AVATAR_STYLES.length : Int)) ++
      "/svg?seed=" ++ Avatar.encodeURIComponent "alice" ++ "&backgroundColor=" ++
        Avatar.jsListGet Avatar.BACKGROUND_COLORS
          (Avatar.hashString "alice" % (Avatar.BACKGROUND_COLORS.length : Int)) :=
  generateAvatar_deterministic "alice" "alice" none none rfl rfl

/-- Claim C10: for every seed, `hashString` is non-negative, so the default
style index (mod 6) and color index (mod 5) are in bounds and both array
lookups yield defined values; a caller-supplied style argument is used as
the index without any bounds check. -/
theorem generateAvatar_index_bounds (seed : String) :
    0 ≤ Avatar.hashString seed ∧
    (Avatar.AVATAR_STYLES.get? (Avatar.styleIndexOf seed none).toNat).isSome = true ∧
    (Avatar.BACKGROUND_COLORS.get?
      (Avatar.hashString seed % (Avatar.BACKGROUND_COLORS.length : Int)).toNat).isSome = true ∧
    ∀ k : Int, Avatar.styleIndexOf seed (some k) = k := by
  refine ⟨Int.natCast_nonneg _, ?_, ?_, fun k => rfl⟩
  · have h0 : (0 : Int) ≤ Avatar.hashString seed % 6 :=
      Int.emod_nonneg _ (by norm_num)
    have h1 : Avatar.hashString seed % 6 < 6 :=
      Int.emod_lt_of_pos _ (by norm_num)
    have h2 : (Avatar.styleIndexOf seed none).toNat < Avatar.AVATAR_STYLES.length := by
      have hlen : (Avatar.AVATAR_STYLES.length : Int) = 6 := by
        norm_num [Avatar.AVATAR_STYLES]
      have hlen2 : Avatar.AVATAR_STYLES.length = 6 := by
        norm_num [Avatar.AVATAR_STYLES]
      simp only [Avatar.styleIndexOf, hlen, hlen2]
      omega
    rw [List.get?_eq_get h2]
    rfl
  · have h0 : (0 : Int) ≤ Avatar.hashString seed % 5 :=
      Int.emod_nonneg _ (by norm_num)
    have h1 : Avatar.hashString seed % 5 < 5 :=
      Int.emod_lt_of_pos _ (by norm_num)
    have h2 : (Avatar.hashString seed % (Avatar.BACKGROUND_COLORS.length : Int)).toNat <
        Avatar.BACKGROUND_COLORS.length := by
      have hlen : (Avatar.BACKGROUND_COLORS.length : Int) = 5 := by
        norm_num [Avatar.BACKGROUND_COLORS]
      have hlen2 : Avatar.BACKGROUND_COLORS.length = 5 := by
        norm_num [Avatar.BACKGROUND_COLORS]
      simp only [hlen, hlen2]
      omega
    rw [List.get?_eq_get h2]
    rfl

/-- Counterexample to claim C1: sending "hi" while subscribed (optimistic
insert, successful database insert, then delivery of the row-insert push
event for the server copy) leaves BOTH the optimistic copy (temporary id)
and the push-delivered copy (server id) in the local transcript — the
message appears twice, not at most once. -/
theorem chat_send_push_both_copies_present :
    Chat.tempMsgEx ∈ Chat.transcriptAfterEx ∧
    Chat.enrich Chat.serverMsgEx "alice" ∈ Chat.transcriptAfterEx ∧
    (Chat.transcriptAfterEx.filter (fun m => m.content == "hi")).length = 2 := by
  decide

/-- Claim C1 (amended): the push-delivered copy is appended at most once —
the realtime handler drops an event whose id is already in the transcript —
but a successful send never removes the optimistic temporary copy, so after
the push event both the optimistic copy and the push-delivered copy are
present. -/
theorem chat_transcript_after_send_and_push (msgs0 : List Chat.TranscriptMsg)
    (tmp : Chat.TranscriptMsg) (srv : Chat.Message) (username : String)
    (hfresh : ∀ m ∈ msgs0, m.id ≠ srv.id) (htmp : tmp.id ≠ srv.id) :
    Chat.handleMessageInsert srv username
        (Chat.sendMessageComplete true tmp.id (Chat.sendMessageOptimistic tmp msgs0)) =
      msgs0 ++ [tmp, Chat.enrich srv username] ∧
    ∀ (l : List Chat.TranscriptMsg) (m : Chat.Message) (u : String),
      (∃ x ∈ l, x.id = m.id) → Chat.handleMessageInsert m u l = l := by
  constructor
  · have hany : ((msgs0 ++ [tmp]).any (fun m => m.id == srv.id)) = false := by
      rw [List.any_eq_false]
      intro x hx
      rcases List.mem_append.mp hx with hx0 | hx1
      · simp [hfresh x hx0]
      · simp at hx1
        simp [hx1, htmp]
    simp [Chat.handleMessageInsert, Chat.sendMessageComplete,
      Chat.sendMessageOptimistic, hany]
  · intro l m u ⟨x, hxl, hxid⟩
    have hany : (l.any (fun y => y.id == m.id)) = true :=
      List.any_eq_true.mpr ⟨x, hxl, by simp [hxid]⟩
    simp [Chat.handleMessageInsert, hany]

/-- Witness for the amended C1 at a concrete send. -/
theorem chat_transcript_after_send_and_push_witness :
    Chat.handleMessageInsert Chat.serverMsgEx "alice"
        (Chat.sendMessageComplete true Chat.tempMsgEx.id
          (Chat.sendMessageOptimistic Chat.tempMsgEx [])) =
      [] ++ [Chat.tempMsgEx, Chat.enrich Chat.serverMsgEx "alice"] ∧
    ∀ (l : List Chat.TranscriptMsg) (m : Chat.Message) (u : String),
      (∃ x ∈ l, x.id = m.id) → Chat.handleMessageInsert m u l = l :=
  chat_transcript_after_send_and_push [] Chat.tempMsgEx Chat.serverMsgEx "alice"
    (by intro m hm; cases hm) (by decide)

/-- Counterexample to claim C2: `stateA` holds one already-read
notification (reached by fetching it), with the unread counter at zero.
That notification is in the local list, yet `markAsRead` on its id does not
decrement the counter by one — `Math.max(0, 0 - 1)` clamps it at zero. -/
theorem markAsRead_read_notification_not_decrement :
    Notifications.notifA ∈ Notifications.stateA.notifications ∧
    ¬ ((Notifications.markAsRead Notifications.notifA.id
          Notifications.stateA).unreadCount =
        Notifications.stateA.unreadCount - 1) := by
  decide

/-- Claim C2 (amended): for every notification in the local list whose read
flag is false, in a state whose unread counter equals the number of unread
notifications, `markAsRead` on its id decrements the counter by exactly one
and every notification with a different id is left entirely unchanged. -/
theorem markAsRead_unread_decrements (s : Notifications.NotifState)
    (n : Notifications.Notification)
    (hinv : Notifications.notifInvariant s)
    (hmem : n ∈ s.notifications) (hunread : n.read = false) :
    (Notifications.markAsRead n.id s).unreadCount = s.unreadCount - 1 ∧
    ∀ m ∈ s.notifications, m.id ≠ n.id →
      m ∈ (Notifications.markAsRead n.id s).notifications := by
  constructor
  · have hpos : 0 < Notifications.unreadLen s.notifications := by
      have hmf : n ∈ s.notifications.filter (fun x => !x.read) :=
        List.mem_filter.mpr ⟨hmem, by simp [hunread]⟩
      exact List.length_pos.mpr (List.ne_nil_of_mem hmf)
    show max 0 (s.unreadCount - 1) = s.unreadCount - 1
    rw [hinv]
    rw [max_eq_right]
    omega
  · intro m hm hne
    show m ∈ s.notifications.map (Notifications.setReadIfId n.id)
    exact List.mem_map.mpr ⟨m, hm, by simp [Notifications.setReadIfId, hne]⟩

/-- Witness for the amended C2: one unread notification, counter one. -/
theorem markAsRead_unread_decrements_witness :
    (Notifications.markAsRead Notifications.notifB.id
        Notifications.stateB).unreadCount =
      Notifications.stateB.unreadCount - 1 ∧
    ∀ m ∈ Notifications.stateB.notifications, m.id ≠ Notifications.notifB.id →
      m ∈ (Notifications.markAsRead Notifications.notifB.id
            Notifications.stateB).notifications :=
  markAsRead_unread_decrements Notifications.stateB Notifications.notifB
    (by decide) (by decide) (by decide)

/-- Counterexample to claim C8: `stateAB` is reachable (it is the result of
the initial fetch of one read and one unread notification) and satisfies
the invariant, but `markAsRead` on the id of the already-read notification
— an operation of the hook — breaks it: the list keeps one unread
notification while the counter drops to zero. -/
theorem notifications_invariant_not_preserved :
    Notifications.notifInvariant Notifications.stateAB ∧
    ¬ Notifications.notifInvariant
        (Notifications.markAsRead "a" Notifications.stateAB) := by
  decide

/-- Claim C8 (amended): the invariant `unreadCount = number of unread
notifications in the list` is established by the initial fetch and, from
any state satisfying it whose notification ids are pairwise distinct, it is
preserved by realtime insert handling of an unread notification, by
`markAsRead` of an id that occurs unread in the list, and by
`markAllAsRead`; `markAsRead` of an absent or already-read id and insertion
of an already-read notification break it. -/
theorem useNotifications_invariant_preserved (s : Notifications.NotifState)
    (data : List Notifications.Notification)
    (n : Notifications.Notification) (id : String)
    (hinv : Notifications.notifInvariant s)
    (hnd : (s.notifications.map Notifications.Notification.id).Nodup) :
    Notifications.notifInvariant (Notifications.fetchNotifications data) ∧
    (n.read = false →
      Notifications.notifInvariant (Notifications.handleInsertNotification n s)) ∧
    ((∃ m ∈ s.notifications, m.id = id ∧ m.read = false) →
      Notifications.notifInvariant (Notifications.markAsRead id s)) ∧
    Notifications.notifInvariant (Notifications.markAllAsRead s) := by
  refine ⟨rfl, ?_, ?_, ?_⟩
  · intro hn
    show s.unreadCount + 1 =
      (Notifications.unreadLen (n :: s.notifications) : Int)
    rw [unreadLen_cons, hn, hinv]
    push_cast
    ring
  · intro hex
    have hlen := unreadLen_map_setReadIfId s.notifications id hnd hex
    show max 0 (s.unreadCount - 1) =
      (Notifications.unreadLen (s.notifications.map (Notifications.setReadIfId id)) : Int)
    rw [hinv, max_eq_right (by omega)]
    omega
  · unfold Notifications.markAllAsRead
    by_cases h0 : s.unreadCount = 0
    · simpa [h0] using hinv
    · simp only [h0, if_false]
      show (0 : Int) = (Notifications.unreadLen
        (s.notifications.map (fun n => { n with read := true })) : Int)
      rw [unreadLen_map_allRead]
      rfl

/-- Witness for the amended C8 at the concrete reachable state `stateAB`. -/
theorem useNotifications_invariant_preserved_witness :
    Notifications.notifInvariant
      (Notifications.fetchNotifications [Notifications.notifB]) ∧
    (Notifications.notifB.read = false →
      Notifications.notifInvariant
        (Notifications.handleInsertNotification Notifications.notifB
          Notifications.stateAB)) ∧
    ((∃ m ∈ Notifications.stateAB.notifications, m.id = "b" ∧ m.read = false) →
      Notifications.notifInvariant
        (Notifications.markAsRead "b" Notifications.stateAB)) ∧
    Notifications.notifInvariant
      (Notifications.markAllAsRead Notifications.stateAB) :=
  useNotifications_invariant_preserved Notifications.stateAB
    [Notifications.notifB] Notifications.notifB "b" (by decide) (by decide)

/-- Counterexample to claim C3: a successful team-creation submission
PREPENDS the new team to the caller's visible team list
(`[newTeam, ...prev]`); with one existing entry the result is not the list
with the new team appended at the end. -/
theorem submitCreateTeam_prepends_not_appends :
    (TeamsPage.submitCreateTeam (some "p1") "Alpha" "Valorant"
        (.ok Api.teamEx) none [Api.oldTeamEx]).2 =
      [(Api.teamEx, []), Api.oldTeamEx] ∧
    ¬ ((TeamsPage.submitCreateTeam (some "p1") "Alpha" "Valorant"
        (.ok Api.teamEx) none [Api.oldTeamEx]).2 =
      [Api.oldTeamEx] ++ [(Api.teamEx, [])]) := by
  decide

/-- Claim C3 (amended): a valid team-creation submission issues exactly one
`teams` insert, whose payload carries the submitting profile as the creator
reference, and on success the new team is prepended (added at the front of)
the caller's visible team list. -/
theorem submitCreateTeam_one_row_prepended (profileId name game : String)
    (memberInsertErr : Option Api.DbError) (nt : Api.Team)
    (myTeams : List Api.TeamWithMembers) :
    (((TeamsPage.submitCreateTeam (some profileId) name game (.ok nt)
          memberInsertErr myTeams).1.trace.filter
        (fun op => op == ⟨.insert, "teams"⟩)).length = 1) ∧
    (TeamsPage.buildTeamData (some profileId) name game).created_by = some profileId ∧
    (TeamsPage.submitCreateTeam (some profileId) name game (.ok nt)
        memberInsertErr myTeams).2 = (nt, []) :: myTeams := by
  cases memberInsertErr <;>
    exact ⟨rfl, rfl, rfl⟩

/-- Claim C4: when the current profile is not the creator of a team, the
backend rejects the delete, `deleteTeam` re-throws the error, and the
caller's local team-list state is unchanged after the failed operation. -/
theorem deleteTeam_not_owner_rejected (requester teamId : String)
    (db : List Api.Team) (t : Api.Team)
    (refreshed myTeams : List Api.TeamWithMembers)
    (hfind : db.find? (fun x => x.id == teamId) = some t)
    (hown : t.created_by ≠ some requester) :
    ∃ e, TeamsPage.backendDeleteTeam requester db teamId = .error e ∧
      (Api.deleteTeam (.error e)).result = .error e ∧
      TeamsPage.handleDelete (Api.deleteTeam (.error e)) refreshed myTeams = myTeams := by
  refine ⟨⟨"not authorized"⟩, ?_, rfl, rfl⟩
  simp [TeamsPage.backendDeleteTeam, hfind, hown]

/-- Witness for C4: profile "p2" attempts to delete the team created by
"p1". -/
theorem deleteTeam_not_owner_rejected_witness :
    ∃ e, TeamsPage.backendDeleteTeam "p2" [Api.teamEx] "t1" = .error e ∧
      (Api.deleteTeam (.error e)).result = .error e ∧
      TeamsPage.handleDelete (Api.deleteTeam (.error e)) [] [Api.oldTeamEx] =
        [Api.oldTeamEx] :=
  deleteTeam_not_owner_rejected "p2" "t1" [Api.teamEx] Api.teamEx
    [] [Api.oldTeamEx] (by decide) (by decide)

/-- Counterexample to claim C5: `createTeam` with a `created_by` reference
performs TWO remote operations (an insert on `teams` followed by an insert
on `team_members`), not exactly one. -/
theorem createTeam_issues_two_operations :
    (Api.createTeam Api.tinsEx (.ok Api.teamEx) none).trace =
      [⟨.insert, "teams"⟩, ⟨.insert, "team_members"⟩] ∧
    ¬ ((Api.createTeam Api.tinsEx (.ok Api.teamEx) none).trace.length = 1) := by
  decide

/-- Claim C5 (amended): every data-access function in the services module
issues one primary remote operation against its entity's table and returns
the raw result or throws; `getTeams` additionally issues one `team_members`
select per fetched team, and `createTeam` additionally issues one
`team_members` insert when a creator reference is present. -/
theorem api_functions_primary_operation
    (tu : Except Api.DbError Api.Team) (td : Except Api.DbError Unit)
    (tb : Except Api.DbError Api.TeamWithMembers)
    (pl : Except Api.DbError (List Api.ProfileRow))
    (ma : Except Api.DbError (List Api.MatchRow))
    (mc : Except Api.DbError Api.MatchRow)
    (prq : Except Api.DbError (List Api.PlayerRequestRow))
    (psr : Except Api.DbError Api.PlayerRequestRow)
    (pur : Except Api.DbError Api.PlayerRequestRow)
    (ntf : Except Api.DbError (List Api.NotificationRow))
    (nmr : Except Api.DbError Api.NotificationRow)
    (teamsResp : Except Api.DbError (List Api.Team))
    (membersResp : String → Except Api.DbError (List Api.TeamMemberRow))
    (tins : Api.TeamInsert) (ir : Except Api.DbError Api.Team)
    (me : Option Api.DbError) :
    ((Api.updateTeam tu).trace = [⟨.update, "teams"⟩] ∧
      (Api.updateTeam tu).result = tu) ∧
    ((Api.deleteTeam td).trace = [⟨.delete, "teams"⟩] ∧
      (Api.deleteTeam td).result = td.map (fun _ => true)) ∧
    ((Api.getTeamById tb).trace = [⟨.select, "teams"⟩] ∧
      (Api.getTeamById tb).result = tb) ∧
    ((Api.getPlayers pl).trace = [⟨.select, "profiles"⟩] ∧
      (Api.getPlayers pl).result = pl) ∧
    ((Api.getMatches ma).trace = [⟨.select, "matches"⟩] ∧
      (Api.getMatches ma).result = ma) ∧
    ((Api.createMatch mc).trace = [⟨.insert, "matches"⟩] ∧
      (Api.createMatch mc).result = mc) ∧
    ((Api.getPlayerRequests prq).trace = [⟨.select, "player_requests"⟩] ∧
      (Api.getPlayerRequests prq).result = prq) ∧
    ((Api.sendPlayerRequest psr).trace = [⟨.insert, "player_requests"⟩] ∧
      (Api.sendPlayerRequest psr).result = psr) ∧
    ((Api.updatePlayerRequest pur).trace = [⟨.update, "player_requests"⟩] ∧
      (Api.updatePlayerRequest pur).result = pur) ∧
    ((Api.getNotifications ntf).trace = [⟨.select, "notifications"⟩] ∧
      (Api.getNotifications ntf).result = ntf) ∧
    ((Api.markNotificationAsRead nmr).trace = [⟨.update, "notifications"⟩] ∧
      (Api.markNotificationAsRead nmr).result = nmr) ∧
    ((Api.getTeams teamsResp membersResp).trace.head? = some ⟨.select, "teams"⟩ ∧
      ∀ op ∈ (Api.getTeams teamsResp membersResp).trace.tail,
        op = (⟨.select, "team_members"⟩ : Api.RemoteOp)) ∧
    ((Api.createTeam tins ir me).trace.head? = some ⟨.insert, "teams"⟩ ∧
      (∀ op ∈ (Api.createTeam tins ir me).trace.tail,
        op = (⟨.insert, "team_members"⟩ : Api.RemoteOp)) ∧
      (Api.createTeam tins ir me).trace.tail.length ≤ 1) := by
  refine ⟨singleOpApi_trace_result _ _ _, singleOpApi_trace_result _ _ _,
    singleOpApi_trace_result _ _ _, singleOpApi_trace_result _ _ _,
    singleOpApi_trace_result _ _ _, singleOpApi_trace_result _ _ _,
    singleOpApi_trace_result _ _ _, singleOpApi_trace_result _ _ _,
    singleOpApi_trace_result _ _ _, singleOpApi_trace_result _ _ _,
    singleOpApi_trace_result _ _ _, ?_, ?_⟩
  · cases teamsResp with
    | error e => exact ⟨rfl, by intro op hop; cases hop⟩
    | ok teams =>
      by_cases he : teams.isEmpty
      · refine ⟨?_, ?_⟩
        · simp [Api.getTeams, he]
        · intro op hop
          simp [Api.getTeams, he] at hop
      · refine ⟨?_, ?_⟩
        · simp [Api.getTeams, he]
        · intro op hop
          simp only [Api.getTeams, if_neg he, List.tail_cons] at hop
          obtain ⟨t, _, rfl⟩ := List.mem_map.mp hop
          rfl
  · cases ir with
    | error e =>
      refine ⟨rfl, ?_, ?_⟩
      · intro op hop; cases hop
      · simp [Api.createTeam]
    | ok t =>
      cases htc : tins.created_by with
      | none =>
        refine ⟨?_, ?_, ?_⟩ <;> simp [Api.createTeam, htc]
      | some uid =>
        cases me with
        | none =>
          refine ⟨?_, ?_, ?_⟩ <;> simp [Api.createTeam, htc]
        | some e =>
          refine ⟨?_, ?_, ?_⟩ <;> simp [Api.createTeam, htc]

/-- Witness for the amended C5 at concrete backend responses. -/
theorem api_functions_primary_operation_witness :
    ((Api.updateTeam (.ok Api.teamEx)).trace = [⟨.update, "teams"⟩] ∧
      (Api.updateTeam (.ok Api.teamEx)).result = .ok Api.teamEx) ∧
    ((Api.deleteTeam (.ok ())).trace = [⟨.delete, "teams"⟩] ∧
      (Api.deleteTeam (.ok ())).result = (Except.ok ()).map (fun _ => true)) ∧
    ((Api.getTeamById (.ok (Api.teamEx, []))).trace = [⟨.select, "teams"⟩] ∧
      (Api.getTeamById (.ok (Api.teamEx, []))).result = .ok (Api.teamEx, [])) ∧
    ((Api.getPlayers (.ok [])).trace = [⟨.select, "profiles"⟩] ∧
      (Api.getPlayers (.ok [])).result = .ok []) ∧
    ((Api.getMatches (.ok [])).trace = [⟨.select, "matches"⟩] ∧
      (Api.getMatches (.ok [])).result = .ok []) ∧
    ((Api.createMatch (.ok ⟨"m1"⟩)).trace = [⟨.insert, "matches"⟩] ∧
      (Api.createMatch (.ok ⟨"m1"⟩)).result = .ok ⟨"m1"⟩) ∧
    ((Api.getPlayerRequests (.ok [])).trace = [⟨.select, "player_requests"⟩] ∧
      (Api.getPlayerRequests (.ok [])).result = .ok []) ∧
    ((Api.sendPlayerRequest (.ok ⟨"r1"⟩)).trace = [⟨.insert, "player_requests"⟩] ∧
      (Api.sendPlayerRequest (.ok ⟨"r1"⟩)).result = .ok ⟨"r1"⟩) ∧
    ((Api.updatePlayerRequest (.ok ⟨"r1"⟩)).trace = [⟨.update, "player_requests"⟩] ∧
      (Api.updatePlayerRequest (.ok ⟨"r1"⟩)).result = .ok ⟨"r1"⟩) ∧
    ((Api.getNotifications (.ok [])).trace = [⟨.select, "notifications"⟩] ∧
      (Api.getNotifications (.ok [])).result = .ok []) ∧
    ((Api.markNotificationAsRead (.ok ⟨"n1"⟩)).trace = [⟨.update, "notifications"⟩] ∧
      (Api.markNotificationAsRead (.ok ⟨"n1"⟩)).result = .ok ⟨"n1"⟩) ∧
    ((Api.getTeams (.ok [Api.teamEx]) (fun _ => .ok [])).trace.head? =
        some ⟨.select, "teams"⟩ ∧
      ∀ op ∈ (Api.getTeams (.ok [Api.teamEx]) (fun _ => .ok [])).trace.tail,
        op = (⟨.select, "team_members"⟩ : Api.RemoteOp)) ∧
    ((Api.createTeam Api.tinsEx (.ok Api.teamEx) none).trace.head? =
        some ⟨.insert, "teams"⟩ ∧
      (∀ op ∈ (Api.createTeam Api.tinsEx (.ok Api.teamEx) none).trace.tail,
        op = (⟨.insert, "team_members"⟩ : Api.RemoteOp)) ∧
      (Api.createTeam Api.tinsEx (.ok Api.teamEx) none).trace.tail.length ≤ 1) :=
  api_functions_primary_operation (.ok Api.teamEx) (.ok ()) (.ok (Api.teamEx, []))
    (.ok []) (.ok []) (.ok ⟨"m1"⟩) (.ok []) (.ok ⟨"r1"⟩) (.ok ⟨"r1"⟩) (.ok [])
    (.ok ⟨"n1"⟩) (.ok [Api.teamEx]) (fun _ => .ok []) Api.tinsEx
    (.ok Api.teamEx) none

/-- Counterexample to claim C6: when the `team_members` insert inside
`createTeam` reports an error, the error is only logged — the function
still returns a normal result, so "returns a normal result iff none of its
remote calls reported an error" fails. -/
theorem createTeam_returns_ok_despite_member_error :
    (Api.createTeam Api.tinsEx (.ok Api.teamEx)
        (some ⟨"permission denied"⟩)).result = .ok (Api.teamEx, []) ∧
    (Api.createTeam Api.tinsEx (.ok Api.teamEx)
        (some ⟨"permission denied"⟩)).log =
      ["Error adding creator as team member:"] :=
  ⟨rfl, rfl⟩

/-- Claim C6 (amended): every remote-call error is logged, and an error of a
function's primary remote call is re-thrown to the caller; however the
per-team members fetch inside `getTeams` and the creator-membership insert
inside `createTeam` log and swallow their errors, so those two functions
return a normal result even when such a secondary call reported an error. -/
theorem api_error_logging_policy
    (tu : Except Api.DbError Api.Team) (td : Except Api.DbError Unit)
    (tb : Except Api.DbError Api.TeamWithMembers)
    (pl : Except Api.DbError (List Api.ProfileRow))
    (ma : Except Api.DbError (List Api.MatchRow))
    (mc : Except Api.DbError Api.MatchRow)
    (prq : Except Api.DbError (List Api.PlayerRequestRow))
    (psr : Except Api.DbError Api.PlayerRequestRow)
    (pur : Except Api.DbError Api.PlayerRequestRow)
    (ntf : Except Api.DbError (List Api.NotificationRow))
    (nmr : Except Api.DbError Api.NotificationRow)
    (teamsResp : Except Api.DbError (List Api.Team))
    (membersResp : String → Except Api.DbError (List Api.TeamMemberRow))
    (tins : Api.TeamInsert) (ir : Except Api.DbError Api.Team)
    (me : Option Api.DbError) :
    ((Api.updateTeam tu).result = tu ∧
      ∀ e, tu = .error e → (Api.updateTeam tu).log = ["Error updating team:"]) ∧
    ((Api.deleteTeam td).result = td.map (fun _ => true) ∧
      ∀ e, td = .error e → (Api.deleteTeam td).log = ["Error deleting team:"]) ∧
    ((Api.getTeamById tb).result = tb ∧
      ∀ e, tb = .error e →
        (Api.getTeamById tb).log = ["Error fetching team with id:"]) ∧
    ((Api.getPlayers pl).result = pl ∧
      ∀ e, pl = .error e → (Api.getPlayers pl).log = ["Error fetching players:"]) ∧
    ((Api.getMatches ma).result = ma ∧
      ∀ e, ma = .error e → (Api.getMatches ma).log = ["Error fetching matches:"]) ∧
    ((Api.createMatch mc).result = mc ∧
      ∀ e, mc = .error e → (Api.createMatch mc).log = ["Error creating match:"]) ∧
    ((Api.getPlayerRequests prq).result = prq ∧
      ∀ e, prq = .error e →
        (Api.getPlayerRequests prq).log = ["Error fetching player requests:"]) ∧
    ((Api.sendPlayerRequest psr).result = psr ∧
      ∀ e, psr = .error e →
        (Api.sendPlayerRequest psr).log = ["Error sending player request:"]) ∧
    ((Api.updatePlayerRequest pur).result = pur ∧
      ∀ e, pur = .error e →
        (Api.updatePlayerRequest pur).log = ["Error updating player request:"]) ∧
    ((Api.getNotifications ntf).result = ntf ∧
      ∀ e, ntf = .error e →
        (Api.getNotifications ntf).log = ["Error fetching notifications:"]) ∧
    ((Api.markNotificationAsRead nmr).result = nmr ∧
      ∀ e, nmr = .error e →
        (Api.markNotificationAsRead nmr).log =
          ["Error marking notification as read:"]) ∧
    ((∀ e, teamsResp = .error e →
        (Api.getTeams teamsResp membersResp).result = .error e ∧
        (Api.getTeams teamsResp membersResp).log =
          ["Error fetching teams:", "Error in getTeams:"]) ∧
      ∀ ts, teamsResp = .ok ts →
        ∃ r, (Api.getTeams teamsResp membersResp).result = .ok r) ∧
    ((∀ e, ir = .error e →
        (Api.createTeam tins ir me).result = .error e ∧
        (Api.createTeam tins ir me).log =
          ["Error creating team:", "Error in createTeam:"]) ∧
      (∀ t, ir = .ok t → (Api.createTeam tins ir me).result = .ok (t, [])) ∧
      ∀ t uid e, ir = .ok t → tins.created_by = some uid → me = some e →
        (Api.createTeam tins ir me).log =
          ["Error adding creator as team member:"]) := by
  refine ⟨⟨(singleOpApi_trace_result _ _ _).2, fun e he => singleOpApi_log _ _ _ e he⟩,
    ⟨(singleOpApi_trace_result _ _ _).2, fun e he => by
      rw [Api.deleteTeam, singleOpApi_log _ _ _ e (by rw [he]; rfl)]⟩,
    ⟨(singleOpApi_trace_result _ _ _).2, fun e he => singleOpApi_log _ _ _ e he⟩,
    ⟨(singleOpApi_trace_result _ _ _).2, fun e he => singleOpApi_log _ _ _ e he⟩,
    ⟨(singleOpApi_trace_result _ _ _).2, fun e he => singleOpApi_log _ _ _ e he⟩,
    ⟨(singleOpApi_trace_result _ _ _).2, fun e he => singleOpApi_log _ _ _ e he⟩,
    ⟨(singleOpApi_trace_result _ _ _).2, fun e he => singleOpApi_log _ _ _ e he⟩,
    ⟨(singleOpApi_trace_result _ _ _).2, fun e he => singleOpApi_log _ _ _ e he⟩,
    ⟨(singleOpApi_trace_result _ _ _).2, fun e he => singleOpApi_log _ _ _ e he⟩,
    ⟨(singleOpApi_trace_result _ _ _).2, fun e he => singleOpApi_log _ _ _ e he⟩,
    ⟨(singleOpApi_trace_result _ _ _).2, fun e he => singleOpApi_log _ _ _ e he⟩,
    ⟨?_, ?_⟩, ⟨?_, ?_, ?_⟩⟩
  · intro e he; subst he; exact ⟨rfl, rfl⟩
  · intro ts hts; subst hts
    by_cases he : ts.isEmpty
    · exact ⟨[], by simp [Api.getTeams, he]⟩
    · refine ⟨ts.map (fun t =>
        match membersResp t.id with
        | .error _ => (t, [])
        | .ok ms => (t, ms)), ?_⟩
      simp [Api.getTeams, he]
  · intro e he; subst he; exact ⟨rfl, rfl⟩
  · intro t ht; subst ht
    cases htc : tins.created_by <;> cases me <;> simp [Api.createTeam, htc]
  · intro t uid e ht htc hme; subst ht; subst hme
    simp [Api.createTeam, htc]

/-- Witness for the amended C6 at concrete error responses. -/
theorem api_error_logging_policy_witness :
    ((Api.updateTeam (.error ⟨"x"⟩)).result = .error ⟨"x"⟩ ∧
      ∀ e, (Except.error ⟨"x"⟩ : Except Api.DbError Api.Team) = .error e →
        (Api.updateTeam (.error ⟨"x"⟩)).log = ["Error updating team:"]) ∧
    ((Api.deleteTeam (.error ⟨"x"⟩)).result =
        (Except.error ⟨"x"⟩ : Except Api.DbError Unit).map (fun _ => true) ∧
      ∀ e, (Except.error ⟨"x"⟩ : Except Api.DbError Unit) = .error e →
        (Api.deleteTeam (.error ⟨"x"⟩)).log = ["Error deleting team:"]) ∧
    ((Api.getTeamById (.error ⟨"x"⟩)).result = .error ⟨"x"⟩ ∧
      ∀ e, (Except.error ⟨"x"⟩ : Except Api.DbError Api.TeamWithMembers) = .error e →
        (Api.getTeamById (.error ⟨"x"⟩)).log = ["Error fetching team with id:"]) ∧
    ((Api.getPlayers (.error ⟨"x"⟩)).result = .error ⟨"x"⟩ ∧
      ∀ e, (Except.error ⟨"x"⟩ : Except Api.DbError (List Api.ProfileRow)) = .error e →
        (Api.getPlayers (.error ⟨"x"⟩)).log = ["Error fetching players:"]) ∧
    ((Api.getMatches (.error ⟨"x"⟩)).result = .error ⟨"x"⟩ ∧
      ∀ e, (Except.error ⟨"x"⟩ : Except Api.DbError (List Api.MatchRow)) = .error e →
        (Api.getMatches (.error ⟨"x"⟩)).log = ["Error fetching matches:"]) ∧
    ((Api.createMatch (.error ⟨"x"⟩)).result = .error ⟨"x"⟩ ∧
      ∀ e, (Except.error ⟨"x"⟩ : Except Api.DbError Api.MatchRow) = .error e →
        (Api.createMatch (.error ⟨"x"⟩)).log = ["Error creating match:"]) ∧
    ((Api.getPlayerRequests (.error ⟨"x"⟩)).result = .error ⟨"x"⟩ ∧
      ∀ e, (Except.error ⟨"x"⟩ : Except Api.DbError (List Api.PlayerRequestRow)) = .error e →
        (Api.getPlayerRequests (.error ⟨"x"⟩)).log = ["Error fetching player requests:"]) ∧
    ((Api.sendPlayerRequest (.error ⟨"x"⟩)).result = .error ⟨"x"⟩ ∧
      ∀ e, (Except.error ⟨"x"⟩ : Except Api.DbError Api.PlayerRequestRow) = .error e →
        (Api.sendPlayerRequest (.error ⟨"x"⟩)).log = ["Error sending player request:"]) ∧
    ((Api.updatePlayerRequest (.error ⟨"x"⟩)).result = .error ⟨"x"⟩ ∧
      ∀ e, (Except.error ⟨"x"⟩ : Except Api.DbError Api.PlayerRequestRow) = .error e →
        (Api.updatePlayerRequest (.error ⟨"x"⟩)).log = ["Error updating player request:"]) ∧
    ((Api.getNotifications (.error ⟨"x"⟩)).result = .error ⟨"x"⟩ ∧
      ∀ e, (Except.error ⟨"x"⟩ : Except Api.DbError (List Api.NotificationRow)) = .error e →
        (Api.getNotifications (.error ⟨"x"⟩)).log = ["Error fetching notifications:"]) ∧
    ((Api.markNotificationAsRead (.error ⟨"x"⟩)).result = .error ⟨"x"⟩ ∧
      ∀ e, (Except.error ⟨"x"⟩ : Except Api.DbError Api.NotificationRow) = .error e →
        (Api.markNotificationAsRead (.error ⟨"x"⟩)).log =
          ["Error marking notification as read:"]) ∧
    ((∀ e, (Except.ok [Api.teamEx] : Except Api.DbError (List Api.Team)) = .error e →
        (Api.getTeams (.ok [Api.teamEx]) (fun _ => .error ⟨"x"⟩)).result = .error e ∧
        (Api.getTeams (.ok [Api.teamEx]) (fun _ => .error ⟨"x"⟩)).log =
          ["Error fetching teams:", "Error in getTeams:"]) ∧
      ∀ ts, (Except.ok [Api.teamEx] : Except Api.DbError (List Api.Team)) = .ok ts →
        ∃ r, (Api.getTeams (.ok [Api.teamEx]) (fun _ => .error ⟨"x"⟩)).result = .ok r) ∧
    ((∀ e, (Except.ok Api.teamEx : Except Api.DbError Api.Team) = .error e →
        (Api.createTeam Api.tinsEx (.ok Api.teamEx) (some ⟨"x"⟩)).result = .error e ∧
        (Api.createTeam Api.tinsEx (.ok Api.teamEx) (some ⟨"x"⟩)).log =
          ["Error creating team:", "Error in createTeam:"]) ∧
      (∀ t, (Except.ok Api.teamEx : Except Api.DbError Api.Team) = .ok t →
        (Api.createTeam Api.tinsEx (.ok Api.teamEx) (some ⟨"x"⟩)).result = .ok (t, [])) ∧
      ∀ t uid e, (Except.ok Api.teamEx : Except Api.DbError Api.Team) = .ok t →
        Api.tinsEx.created_by = some uid → (some ⟨"x"⟩ : Option Api.DbError) = some e →
        (Api.createTeam Api.tinsEx (.ok Api.teamEx) (some ⟨"x"⟩)).log =
          ["Error adding creator as team member:"]) :=
  api_error_logging_policy (.error ⟨"x"⟩) (.error ⟨"x"⟩) (.error ⟨"x"⟩)
    (.error ⟨"x"⟩) (.error ⟨"x"⟩) (.error ⟨"x"⟩) (.error ⟨"x"⟩) (.error ⟨"x"⟩)
    (.error ⟨"x"⟩) (.error ⟨"x"⟩) (.error ⟨"x"⟩) (.ok [Api.teamEx])
    (fun _ => .error ⟨"x"⟩) Api.tinsEx (.ok Api.teamEx) (some ⟨"x"⟩)

/-- Claim C9: `joinChat` is idempotent — when the user is already a
participant of the chat it returns `true` without inserting a second
participant row, and performing `joinChat` twice leaves the participant
table equal to performing it once. -/
theorem joinChat_idempotent (userId chatId : String)
    (parts : List Chats.ChatParticipantRow) :
    ((⟨chatId, userId⟩ : Chats.ChatParticipantRow) ∈ parts →
      Chats.joinChat userId parts chatId = (true, parts)) ∧
    (Chats.joinChat userId (Chats.joinChat userId parts chatId).2 chatId).2 =
      (Chats.joinChat userId parts chatId).2 ∧
    (Chats.joinChat userId parts chatId).1 = true := by
  refine ⟨?_, ?_, ?_⟩
  · intro hmem
    cases h : parts.find? (fun p => p.chat_id == chatId && p.user_id == userId) with
    | none =>
      have := List.find?_eq_none.mp h ⟨chatId, userId⟩ hmem
      simp at this
    | some q => simp [Chats.joinChat, h]
  · cases h : parts.find? (fun p => p.chat_id == chatId && p.user_id == userId) with
    | some q => simp [Chats.joinChat, h]
    | none =>
      have happ : ((parts ++ [(⟨chatId, userId⟩ : Chats.ChatParticipantRow)]).find?
          (fun p => p.chat_id == chatId && p.user_id == userId)) =
            some ⟨chatId, userId⟩ := by
        rw [List.find?_append, h]
        simp [List.find?_cons]
      simp [Chats.joinChat, h, happ]
  · cases h : parts.find? (fun p => p.chat_id == chatId && p.user_id == userId) <;>
      simp [Chats.joinChat, h]

/-- Witness for C9: the user "u1" is already a participant of chat "c1". -/
theorem joinChat_idempotent_witness :
    ((⟨"c1", "u1"⟩ : Chats.ChatParticipantRow) ∈
        [(⟨"c1", "u1"⟩ : Chats.ChatParticipantRow)] →
      Chats.joinChat "u1" [(⟨"c1", "u1"⟩ : Chats.ChatParticipantRow)] "c1" =
        (true, [⟨"c1", "u1"⟩])) ∧
    (Chats.joinChat "u1"
        (Chats.joinChat "u1" [(⟨"c1", "u1"⟩ : Chats.ChatParticipantRow)] "c1").2
        "c1").2 =
      (Chats.joinChat "u1" [(⟨"c1", "u1"⟩ : Chats.ChatParticipantRow)] "c1").2 ∧
    (Chats.joinChat "u1" [(⟨"c1", "u1"⟩ : Chats.ChatParticipantRow)] "c1").1 = true :=
  joinChat_idempotent "u1" "c1" [⟨"c1", "u1"⟩]

end NexusArena
